import Mathlib

/-!
Verification of the Vedic-astrology computation core: shallow embedding of
the varga (divisional chart), dasha, ashtakavarga, strength, panchang,
predictor and ephemeris-fallback routines, with theorems settling the
specification claims.  Python floats are modelled as exact rationals; Python
`x % m` and `x // m` (for a positive modulus `m`) are modelled by `qmod` and
`Int.fdiv`/`Int.emod`, which agree with Python semantics for positive
divisors.
-/

/-- Python float modulo for a positive modulus: `a - m * ⌊a / m⌋`. -/
def qmod (a m : ℚ) : ℚ := a - m * ⌊a / m⌋

namespace Varga

/-- The 12 zodiac sign names, in order (`ZODIAC_SIGNS`). -/
def ZODIAC_SIGNS : List String :=
  ["Aries", "Taurus", "Gemini", "Cancer", "Leo", "Virgo",
   "Libra", "Scorpio", "Sagittarius", "Capricorn", "Aquarius", "Pisces"]

/-- `_sign_index`: `int((longitude % 360) // 30)`. -/
def signIndexZ (longitude : ℚ) : ℤ := ⌊qmod longitude 360 / 30⌋

/-- `_nth_part`: `int(((longitude % 30.0) // (30.0 / division)) % division)`. -/
def nthPartZ (longitude : ℚ) (division : ℕ) : ℤ :=
  ⌊qmod longitude 30 / (30 / (division : ℚ))⌋ % (division : ℤ)

/-- `rasi`: whole-sign (D1) mapping. -/
def rasi (longitude : ℚ) : String :=
  ZODIAC_SIGNS.getD (signIndexZ longitude).toNat ""

/-- `drekkana`: the named D3 variant, `target = (sign + part*4) % 12`. -/
def drekkana (longitude : ℚ) : String :=
  let sign := signIndexZ longitude
  let part := nthPartZ longitude 3
  let target := (sign + part * 4) % 12
  ZODIAC_SIGNS.getD target.toNat ""

/-- `navamsa`: the named D9 variant, `target = (sign*9 + part) % 12`. -/
def navamsa (longitude : ℚ) : String :=
  let sign := signIndexZ longitude
  let part := nthPartZ longitude 9
  let target := (sign * 9 + part) % 12
  ZODIAC_SIGNS.getD target.toNat ""

/-- `_uniform_division`: `target = (sign*division + part + offset) % (12*division)`,
`target_sign = (target // division) % 12`. -/
def uniformDivision (longitude : ℚ) (division : ℕ) (offset : ℤ) : String :=
  let sign := signIndexZ longitude
  let part := nthPartZ longitude division
  let target := (sign * division + part + offset) % (12 * division)
  let targetSign := target.fdiv division % 12
  ZODIAC_SIGNS.getD targetSign.toNat ""

/-- `get_varga`: name-to-function dispatch table; unknown names raise
(`KeyError`), modelled by `Option`. -/
def getVarga (name : String) : Option (ℚ → String) :=
  (([("D1", rasi),
     ("D2", fun lon => uniformDivision lon 2 0),
     ("D3", drekkana),
     ("D4", fun lon => uniformDivision lon 4 0),
     ("D5", fun lon => uniformDivision lon 5 0),
     ("D6", fun lon => uniformDivision lon 6 0),
     ("D7", fun lon => uniformDivision lon 7 0),
     ("D8", fun lon => uniformDivision lon 8 0),
     ("D9", navamsa),
     ("D10", fun lon => uniformDivision lon 10 0),
     ("D11", fun lon => uniformDivision lon 11 0),
     ("D12", fun lon => uniformDivision lon 12 0),
     ("D16", fun lon => uniformDivision lon 16 0),
     ("D20", fun lon => uniformDivision lon 20 0),
     ("D24", fun lon => uniformDivision lon 24 0),
     ("D27", fun lon => uniformDivision lon 27 0),
     ("D30", fun lon => uniformDivision lon 30 0),
     ("D40", fun lon => uniformDivision lon 40 0),
     ("D45", fun lon => uniformDivision lon 45 0),
     ("D60", fun lon => uniformDivision lon 60 0)] :
      List (String × (ℚ → String))).find? (fun p => p.1 = name)).map Prod.snd

/-- The divisions routed through `_uniform_division` in `get_varga`. -/
def uniformDivisionNames : List (String × ℕ) :=
  [("D2", 2), ("D4", 4), ("D5", 5), ("D6", 6), ("D7", 7), ("D8", 8),
   ("D10", 10), ("D11", 11), ("D12", 12), ("D16", 16), ("D20", 20),
   ("D24", 24), ("D27", 27), ("D30", 30), ("D40", 40), ("D45", 45),
   ("D60", 60)]

end Varga

namespace Dasha

/-- `DASHA_ORDER`: the fixed cyclic order of the nine Vimshottari lords. -/
def DASHA_ORDER : List String :=
  ["Ketu", "Venus", "Sun", "Moon", "Mars", "Rahu", "Jupiter", "Saturn", "Mercury"]

/-- `DASHA_YEARS`: each lord's allotted years (integers in the source dict;
a missing key would raise `KeyError`, modelled by default 0 — only the nine
lords are ever looked up). -/
def DASHA_YEARS (lord : String) : ℕ :=
  if lord = "Ketu" then 7
  else if lord = "Venus" then 20
  else if lord = "Sun" then 6
  else if lord = "Moon" then 10
  else if lord = "Mars" then 7
  else if lord = "Rahu" then 18
  else if lord = "Jupiter" then 16
  else if lord = "Saturn" then 19
  else if lord = "Mercury" then 17
  else 0

/-- `DashaPeriod`; instants are modelled as exact rational day counts. -/
structure DashaPeriod where
  lord : String
  start : ℚ
  stop : ℚ
  level : ℕ
  parent : Option String
  deriving Repr, DecidableEq

/-- `sum(DASHA_YEARS[DASHA_ORDER[i]] for i in range(DASHA_ORDER.index(lord)))`. -/
def yearsBefore (lord : String) : ℕ :=
  ((DASHA_ORDER.take (DASHA_ORDER.indexOf lord)).map DASHA_YEARS).sum

/-- One sub-period of `_sub_dashas`: start offset is proportional to the
years of the lords before `lord` in `DASHA_ORDER`, duration to the lord's
own years over 120. -/
def subPeriod (parentPeriod : DashaPeriod) (lord : String) : DashaPeriod :=
  let duration := parentPeriod.stop - parentPeriod.start
  let start := parentPeriod.start + duration * (yearsBefore lord : ℚ) / 120
  { lord := lord
    start := start
    stop := start + duration * ((DASHA_YEARS lord : ℚ) / 120)
    level := parentPeriod.level + 1
    parent := some parentPeriod.lord }

/-- `_sub_dashas(parent_period, levels)`: iterates over `DASHA_ORDER`
(always from Ketu), appending each sub-period and, when `levels > 1`,
its own recursive subdivision. -/
def subDashas (parentPeriod : DashaPeriod) : ℕ → List DashaPeriod
  | l + 2 =>
      DASHA_ORDER.flatMap fun lord =>
        let period := subPeriod parentPeriod lord
        period :: subDashas period (l + 1)
  | _ => DASHA_ORDER.map (subPeriod parentPeriod)

end Dasha

namespace Panchang

/-- Sun/Moon inputs of the interval helpers: longitude and longitudinal
speed (degrees/day), both arbitrary rationals. -/
structure BodyState where
  longitude : ℚ
  speed : ℚ

/-- `TITHI_SPAN`. -/
def TITHI_SPAN : ℚ := 12

/-- `NAKSHATRA_SPAN` (`13 + 20/60`). -/
def NAKSHATRA_SPAN : ℚ := 13 + 20 / 60

/-- `YOGA_SPAN` (`13 + 20/60`). -/
def YOGA_SPAN : ℚ := 13 + 20 / 60

/-- `KARANA_SPAN`. -/
def KARANA_SPAN : ℚ := 6

/-- `_relative_speed`: `max(abs(moon_speed - sun_speed), 0.1)`. -/
def relativeSpeed (moonSpeed sunSpeed : ℚ) : ℚ :=
  max |moonSpeed - sunSpeed| (1 / 10)

/-- `_time_delta_from_degrees`: a day-fraction `delta / speed`. -/
def timeDeltaFromDegrees (delta speed : ℚ) : ℚ := delta / speed

/-- `_tithi_interval` end instant (`int()` truncation equals `⌊⌋` here
since the normalized separation is non-negative). -/
def tithiEnd (tWhen : ℚ) (sun moon : BodyState) : ℚ :=
  let diff := qmod (moon.longitude - sun.longitude) 360
  let index : ℤ := ⌊diff / TITHI_SPAN⌋
  let remainder := diff - index * TITHI_SPAN
  let relSpeed := relativeSpeed moon.speed sun.speed
  tWhen + timeDeltaFromDegrees (TITHI_SPAN - remainder) relSpeed

/-- `_nakshatra_interval` end instant. -/
def nakshatraEnd (tWhen : ℚ) (moon : BodyState) : ℚ :=
  let diff := qmod moon.longitude NAKSHATRA_SPAN
  let speed := max |moon.speed| (1 / 10)
  tWhen + timeDeltaFromDegrees (NAKSHATRA_SPAN - diff) speed

/-- `_yoga_interval` end instant. -/
def yogaEnd (tWhen : ℚ) (sun moon : BodyState) : ℚ :=
  let sumLong := qmod (sun.longitude + moon.longitude) 360
  let index : ℤ := ⌊sumLong / YOGA_SPAN⌋
  let remainder := sumLong - index * YOGA_SPAN
  let speed := max (|sun.speed| + |moon.speed|) (1 / 10)
  tWhen + timeDeltaFromDegrees (YOGA_SPAN - remainder) speed

/-- `_karana_interval` end instant. -/
def karanaEnd (tWhen : ℚ) (sun moon : BodyState) : ℚ :=
  let diff := qmod (moon.longitude - sun.longitude) 360
  let index : ℤ := ⌊diff / KARANA_SPAN⌋
  let remainder := diff - index * KARANA_SPAN
  let relSpeed := relativeSpeed moon.speed sun.speed
  tWhen + timeDeltaFromDegrees (KARANA_SPAN - remainder) relSpeed

end Panchang

namespace AI

/-- `DailyPeriod`: a named daily window with start/end instants. -/
structure DailyPeriod where
  name : String
  start : ℚ
  stop : ℚ

/-- `_temporal_penalties` multiplier: for every period containing the
instant (`period.start <= when < period.end`), scale by 0.6 for Rahu
Kalam, 0.75 for Yamaganda and 0.8 for Gulika Kalam. -/
def temporalMultiplier (periods : List DailyPeriod) (tWhen : ℚ) : ℚ :=
  periods.foldl
    (fun m p =>
      if p.start ≤ tWhen ∧ tWhen < p.stop then
        if p.name = "Rahu Kalam" then m * 0.6
        else if p.name = "Yamaganda" then m * 0.75
        else if p.name = "Gulika Kalam" then m * 0.8
        else m
      else m)
    1

/-- The composite score of one `predict` interval: the weighted engine
outputs summed and then multiplied by the temporal penalty multiplier. -/
def intervalScore (shadbalaScore bhavaScore ishtaScore ishtaImpact
    natalBonus dashaPenalty : ℚ) (periods : List DailyPeriod)
    (tWhen : ℚ) : ℚ :=
  (shadbalaScore + bhavaScore + ishtaScore * ishtaImpact * 10
    + natalBonus + dashaPenalty) * temporalMultiplier periods tWhen

/-- Stable ascending insertion by score (ties keep existing elements
first). -/
def orderedInsertIdx (x : ℕ × ℚ) : List (ℕ × ℚ) → List (ℕ × ℚ)
  | [] => [x]
  | y :: ys => if x.2 ≤ y.2 then x :: y :: ys else y :: orderedInsertIdx x ys

/-- Stable ascending insertion sort on (original index, score) rows. -/
def sortAscIdx : List (ℕ × ℚ) → List (ℕ × ℚ)
  | [] => []
  | x :: xs => orderedInsertIdx x (sortAscIdx xs)

/-- Model of `df.sort_values("Score", ascending=False)` on the score
column: pandas `nargsort` argsorts ascending and then reverses the
indexer, so the rows come out in reversed ascending order (numpy's
default quicksort coincides with the stable insertion sort on arrays
shorter than its 16-element insertion-sort cutoff, which covers the
concrete cases evaluated here). -/
def sortValuesDesc (scores : List ℚ) : List (ℕ × ℚ) :=
  (sortAscIdx scores.enum).reverse

end AI

namespace Ephemeris

/-- The transcendental solar-geometry intermediates of
`_approximate_rise_set` — the values its float trigonometry produces
before the `cos_h` range test — supplied as symbolic rational inputs:
`sinDec`/`cosDec` of the solar declination, `sinLat`/`cosLat` of the
observer latitude, `cosZenith` = cos of the fixed 90.8333° civil-twilight
zenith, `acosDeg` = degrees(acos(cos_h)) (used only when `cos_h` is in
range), `ra` the adjusted right ascension in hours, and `t` the
approximate day value. -/
structure SolarTrig where
  sinDec : ℚ
  cosDec : ℚ
  sinLat : ℚ
  cosLat : ℚ
  cosZenith : ℚ
  acosDeg : ℚ
  ra : ℚ
  t : ℚ

/-- `cos_h = (cos(zenith) - sin_dec*sin(lat)) / (cos_dec*cos(lat))`. -/
def cosH (s : SolarTrig) : ℚ :=
  (s.cosZenith - s.sinDec * s.sinLat) / (s.cosDec * s.cosLat)

/-- `_approximate_rise_set` from the `cos_h` test on: `None` (not an
error) when `cos_h` lies outside [-1, 1] — the Sun never rises or never
sets — otherwise the local clock hours of the event on the date. -/
def approximateRiseSet (s : SolarTrig) (lngHour tzOffsetHours : ℚ)
    (isSunrise : Bool) : Option ℚ :=
  if cosH s > 1 then none
  else if cosH s < -1 then none
  else
    let h := (if isSunrise then 360 - s.acosDeg else s.acosDeg) / 15
    let tLocal := h + s.ra - 0.06571 * s.t - 6.622
    let ut := qmod (tLocal - lngHour) 24
    some (ut + tzOffsetHours)

/-- `RiseSetTimes` as produced by the fallback path of `sunrise_sunset`. -/
structure RiseSetTimes where
  sunrise : ℚ
  sunset : ℚ

/-- The fallback path of `sunrise_sunset`: two `_approximate_rise_set`
calls (sunrise and sunset carry distinct trig inputs since their `t`
differ); `None` when either is absent; otherwise one day is subtracted
from the sunrise when it computes later than the sunset. -/
def sunriseSunsetFallback (rise sets : SolarTrig)
    (lngHour tzOffsetHours : ℚ) : Option RiseSetTimes :=
  match approximateRiseSet rise lngHour tzOffsetHours true,
        approximateRiseSet sets lngHour tzOffsetHours false with
  | some r, some s => some (if r > s then ⟨r - 24, s⟩ else ⟨r, s⟩)
  | _, _ => none

end Ephemeris

namespace Ashtakavarga

/-- `SUN_ASHTAKA` contribution table. -/
def SUN_ASHTAKA : List (String × List ℕ) :=
[("Sun", [1, 1, 0, 1, 0, 0, 1, 1, 1, 1, 1, 0]),
 ("Moon", [0, 0, 1, 0, 0, 1, 0, 0, 0, 1, 1, 0]),
 ("Mars", [1, 1, 0, 1, 0, 0, 1, 1, 1, 1, 1, 0]),
 ("Mercury", [0, 0, 1, 0, 1, 1, 0, 0, 1, 1, 1, 1]),
 ("Jupiter", [0, 0, 0, 0, 1, 1, 0, 0, 1, 0, 1, 1]),
 ("Venus", [0, 0, 0, 0, 0, 0, 1, 0, 0, 0, 0, 1]),
 ("Saturn", [1, 1, 0, 1, 0, 0, 1, 1, 1, 1, 1, 0]),
 ("Asc", [0, 0, 1, 1, 0, 1, 0, 0, 0, 1, 1, 1])]

/-- `MOON_ASHTAKA` contribution table. -/
def MOON_ASHTAKA : List (String × List ℕ) :=
[("Sun", [0, 0, 1, 0, 0, 1, 0, 0, 0, 1, 1, 0]),
 ("Moon", [1, 0, 0, 1, 0, 1, 0, 0, 1, 1, 0, 1]),
 ("Mars", [1, 1, 0, 1, 0, 0, 1, 1, 1, 1, 0, 0]),
 ("Mercury", [0, 1, 0, 0, 1, 1, 0, 0, 1, 1, 1, 0]),
 ("Jupiter", [0, 0, 0, 0, 1, 1, 0, 1, 1, 0, 1, 1]),
 ("Venus", [0, 0, 1, 0, 0, 0, 1, 0, 0, 0, 1, 1]),
 ("Saturn", [1, 0, 0, 1, 0, 0, 1, 1, 1, 1, 0, 0]),
 ("Asc", [0, 0, 1, 1, 0, 1, 0, 0, 0, 1, 1, 1])]

/-- `MARS_ASHTAKA` contribution table. -/
def MARS_ASHTAKA : List (String × List ℕ) :=
[("Sun", [1, 1, 0, 1, 0, 0, 1, 1, 1, 1, 1, 0]),
 ("Moon", [0, 0, 1, 0, 0, 1, 0, 0, 0, 1, 1, 0]),
 ("Mars", [1, 1, 0, 1, 0, 0, 1, 1, 1, 1, 1, 0]),
 ("Mercury", [0, 0, 1, 0, 1, 1, 0, 0, 1, 1, 1, 0]),
 ("Jupiter", [0, 0, 0, 0, 1, 1, 0, 0, 1, 0, 1, 1]),
 ("Venus", [0, 0, 0, 0, 0, 0, 1, 0, 0, 0, 1, 1]),
 ("Saturn", [1, 1, 0, 1, 0, 0, 1, 1, 1, 1, 1, 0]),
 ("Asc", [0, 0, 1, 1, 0, 1, 0, 0, 0, 1, 1, 1])]

/-- `MERCURY_ASHTAKA` contribution table. -/
def MERCURY_ASHTAKA : List (String × List ℕ) :=
[("Sun", [1, 0, 0, 1, 0, 1, 0, 0, 0, 1, 1, 0]),
 ("Moon", [0, 1, 0, 0, 1, 1, 0, 0, 1, 1, 1, 0]),
 ("Mars", [1, 1, 0, 1, 0, 0, 1, 1, 1, 1, 0, 0]),
 ("Mercury", [1, 0, 1, 0, 1, 1, 0, 0, 1, 1, 1, 1]),
 ("Jupiter", [0, 0, 0, 0, 1, 1, 0, 1, 1, 0, 1, 1]),
 ("Venus", [0, 0, 1, 0, 0, 0, 1, 0, 0, 0, 1, 1]),
 ("Saturn", [1, 0, 0, 1, 0, 0, 1, 1, 1, 1, 0, 0]),
 ("Asc", [0, 0, 1, 1, 0, 1, 0, 0, 0, 1, 1, 1])]

/-- `JUPITER_ASHTAKA` contribution table. -/
def JUPITER_ASHTAKA : List (String × List ℕ) :=
[("Sun", [0, 0, 1, 0, 0, 1, 0, 0, 1, 1, 1, 0]),
 ("Moon", [0, 1, 0, 0, 1, 1, 0, 0, 1, 1, 1, 0]),
 ("Mars", [1, 1, 0, 1, 0, 0, 1, 1, 1, 1, 0, 0]),
 ("Mercury", [0, 0, 1, 0, 1, 1, 0, 0, 1, 1, 1, 1]),
 ("Jupiter", [1, 0, 0, 0, 1, 1, 0, 1, 1, 0, 1, 1]),
 ("Venus", [0, 0, 1, 0, 0, 0, 1, 0, 0, 0, 1, 1]),
 ("Saturn", [1, 0, 0, 1, 0, 0, 1, 1, 1, 1, 0, 0]),
 ("Asc", [0, 0, 1, 1, 0, 1, 0, 0, 0, 1, 1, 1])]

/-- `VENUS_ASHTAKA` contribution table. -/
def VENUS_ASHTAKA : List (String × List ℕ) :=
[("Sun", [0, 0, 1, 0, 0, 1, 0, 0, 1, 1, 0, 0]),
 ("Moon", [0, 0, 1, 0, 1, 1, 0, 0, 1, 1, 1, 0]),
 ("Mars", [1, 1, 0, 1, 0, 0, 1, 1, 1, 1, 0, 0]),
 ("Mercury", [0, 1, 1, 0, 1, 1, 0, 0, 1, 1, 1, 1]),
 ("Jupiter", [0, 0, 0, 0, 1, 1, 0, 1, 1, 0, 1, 1]),
 ("Venus", [1, 0, 0, 0, 0, 0, 1, 0, 0, 0, 1, 1]),
 ("Saturn", [1, 0, 0, 1, 0, 0, 1, 1, 1, 1, 0, 0]),
 ("Asc", [0, 0, 1, 1, 0, 1, 0, 0, 0, 1, 1, 1])]

/-- `SATURN_ASHTAKA` contribution table. -/
def SATURN_ASHTAKA : List (String × List ℕ) :=
[("Sun", [1, 1, 0, 1, 0, 0, 1, 1, 1, 1, 1, 0]),
 ("Moon", [0, 0, 1, 0, 0, 1, 0, 0, 0, 1, 1, 0]),
 ("Mars", [1, 1, 0, 1, 0, 0, 1, 1, 1, 1, 1, 0]),
 ("Mercury", [0, 1, 0, 0, 1, 1, 0, 0, 1, 1, 1, 1]),
 ("Jupiter", [0, 0, 0, 0, 1, 1, 0, 1, 1, 0, 1, 1]),
 ("Venus", [0, 0, 1, 0, 0, 0, 1, 0, 0, 0, 1, 1]),
 ("Saturn", [1, 0, 0, 1, 0, 0, 1, 1, 1, 1, 1, 0]),
 ("Asc", [0, 0, 1, 1, 0, 1, 0, 0, 0, 1, 1, 1])]

/-- `ASHTAKA_RULES`: target planet to contribution table (`dict.get`:
unknown targets yield no table, modelled by the empty list, which makes
`compute_bhinnashtakavarga` skip the target). -/
def ASHTAKA_RULES (target : String) : List (String × List ℕ) :=
  if target = "Sun" then SUN_ASHTAKA
  else if target = "Moon" then MOON_ASHTAKA
  else if target = "Mars" then MARS_ASHTAKA
  else if target = "Mercury" then MERCURY_ASHTAKA
  else if target = "Jupiter" then JUPITER_ASHTAKA
  else if target = "Venus" then VENUS_ASHTAKA
  else if target = "Saturn" then SATURN_ASHTAKA
  else []

/-- `self.planets`: the seven target bodies. -/
def planets7 : List String :=
  ["Sun", "Moon", "Mars", "Mercury", "Jupiter", "Venus", "Saturn"]

/-- The chart's contributor rows (`self.planets + ["Asc"]`). -/
def contributors : List String := planets7 ++ ["Asc"]

/-- Assoc-list lookup modelling a Python dict access. -/
def lookup? {α : Type} (l : List (String × α)) (k : String) : Option α :=
  (l.find? (fun p => p.1 = k)).map Prod.snd

/-- `self.positions` after `__init__`: the caller's positions dict with
the `Asc` entry set to the ascendant. -/
def positionOf (positions : List (String × ℚ)) (asc : ℚ)
    (name : String) : Option ℚ :=
  if name = "Asc" then some asc else lookup? positions name

/-- One contributor row's value at house `h`: the source loop writes a 1
at house `(base_sign + offset) % 12 + 1` for every set pattern bit
(`base_sign = int(contributor_pos // 30)`); every other cell keeps its 0
initialization. -/
def binduCell (pattern : List ℕ) (contributorPos : ℚ) (h : ℕ) : ℕ :=
  let baseSign : ℤ := ⌊contributorPos / 30⌋
  (List.range 12).foldl
    (fun acc offset =>
      if pattern.getD offset 0 ≠ 0 ∧ ((baseSign + offset) % 12).toNat + 1 = h
      then 1 else acc)
    0

/-- A contributor row is all zeros when the contributor has no rules
entry or no position (`continue` in the source). -/
def contributorRow (rules : List (String × List ℕ))
    (positions : List (String × ℚ)) (asc : ℚ)
    (contributor : String) (h : ℕ) : ℕ :=
  match lookup? rules contributor, positionOf positions asc contributor with
  | some pattern, some pos => binduCell pattern pos h
  | _, _ => 0

/-- `compute_bhinnashtakavarga`: the target chart's Total row at house
`h` — the column-wise sum over the eight contributor rows. -/
def bhinnaTotal (target : String) (positions : List (String × ℚ))
    (asc : ℚ) (h : ℕ) : ℕ :=
  (contributors.map
    (fun c => contributorRow (ASHTAKA_RULES target) positions asc c h)).sum

/-- `compute_sarvashtakavarga`: the composite Total row at house `h` —
the sum of the seven per-target Total rows. -/
def sarvaTotal (positions : List (String × ℚ)) (asc : ℚ) (h : ℕ) : ℕ :=
  (planets7.map (fun p => bhinnaTotal p positions asc h)).sum

end Ashtakavarga

namespace Strength

/-- `PlanetPosition` restricted to the fields `shadbala` reads
(longitude, latitude, longitudinal speed, declination). -/
structure PlanetPosition where
  longitude : ℚ
  latitude : ℚ
  speed_longitude : ℚ
  declination : ℚ
  deriving Repr, DecidableEq

/-- The `StrengthCalculator` constructor inputs: the positions dict (an
assoc list; a Python dict has unique keys, which bound theorems assume as
`Nodup` on the keys), the house cusps and the varga summary. -/
structure StrengthInputs where
  positions : List (String × PlanetPosition)
  houses : List (String × ℚ)
  vargas : List (String × List (String × String))

/-- Assoc-list lookup modelling a Python dict `.get`. -/
def alookup {α : Type} (l : List (String × α)) (k : String) : Option α :=
  (l.find? (fun p => p.1 = k)).map Prod.snd

/-- `PLANET_GENDERS` with the `.get(planet, "neutral")` default. -/
def PLANET_GENDERS (planet : String) : String :=
  if planet = "Sun" then "male"
  else if planet = "Moon" then "female"
  else if planet = "Mars" then "male"
  else if planet = "Mercury" then "neutral"
  else if planet = "Jupiter" then "male"
  else if planet = "Venus" then "female"
  else if planet = "Saturn" then "neutral"
  else if planet = "Rahu" then "neutral"
  else if planet = "Ketu" then "neutral"
  else "neutral"

/-- `EXALTATION_POINTS` (7 entries; `None` elsewhere). -/
def EXALTATION_POINTS (planet : String) : Option ℚ :=
  if planet = "Sun" then some 130
  else if planet = "Moon" then some 33
  else if planet = "Mars" then some 298
  else if planet = "Mercury" then some 165
  else if planet = "Jupiter" then some 95
  else if planet = "Venus" then some 357
  else if planet = "Saturn" then some 200
  else none

/-- `FRIENDSHIP[planet]["friends"]` with the empty-set default. -/
def FRIENDS (planet : String) : List String :=
  if planet = "Sun" then ["Moon", "Mars", "Jupiter"]
  else if planet = "Moon" then ["Sun", "Mercury"]
  else if planet = "Mars" then ["Sun", "Moon", "Jupiter"]
  else if planet = "Mercury" then ["Sun", "Venus"]
  else if planet = "Jupiter" then ["Sun", "Moon", "Mars"]
  else if planet = "Venus" then ["Mercury", "Saturn"]
  else if planet = "Saturn" then ["Mercury", "Venus"]
  else []

/-- `FRIENDSHIP[planet]["enemies"]` with the empty-set default. -/
def ENEMIES (planet : String) : List String :=
  if planet = "Sun" then ["Venus", "Saturn"]
  else if planet = "Moon" then ["None"]
  else if planet = "Mars" then ["Mercury"]
  else if planet = "Mercury" then ["Moon"]
  else if planet = "Jupiter" then ["Venus", "Mercury"]
  else if planet = "Venus" then ["Sun", "Moon"]
  else if planet = "Saturn" then ["Sun", "Moon"]
  else []

/-- `NAISARGIKA_BALA.get(planet, 5.0)`. -/
def naisargikaBala (planet : String) : ℚ :=
  if planet = "Sun" then 60
  else if planet = "Moon" then 51.4
  else if planet = "Venus" then 42.9
  else if planet = "Jupiter" then 34.3
  else if planet = "Mercury" then 25.7
  else if planet = "Mars" then 17.1
  else if planet = "Saturn" then 8.6
  else if planet = "Rahu" then 8.6
  else if planet = "Ketu" then 8.6
  else 5

/-- `DIG_BALA_OPTIMA` (all nine bodies present; `None` elsewhere). -/
def DIG_BALA_OPTIMA (planet : String) : Option ℤ :=
  if planet = "Sun" then some 10
  else if planet = "Mars" then some 10
  else if planet = "Jupiter" then some 1
  else if planet = "Mercury" then some 1
  else if planet = "Moon" then some 4
  else if planet = "Venus" then some 4
  else if planet = "Saturn" then some 7
  else if planet = "Rahu" then some 7
  else if planet = "Ketu" then some 7
  else none

/-- `_sign_lord`: `rulers[sign_index % 12]`. -/
def signLord (signIndex : ℕ) : String :=
  ["Mars", "Venus", "Mercury", "Moon", "Sun", "Mercury",
   "Venus", "Mars", "Jupiter", "Saturn", "Saturn", "Jupiter"].getD
    (signIndex % 12) ""

/-- `_uchcha_bala`: distance from the debilitation point folded to
[0, 180], divided by 3 and capped at 60; 15 for bodies with no
exaltation point. -/
def uchchaBala (planet : String) (position : PlanetPosition) : ℚ :=
  match EXALTATION_POINTS planet with
  | none => 15
  | some exalt =>
      let debil := qmod (exalt + 180) 360
      let distance := qmod (position.longitude - debil + 360) 360
      let folded := if distance > 180 then 360 - distance else distance
      min 60 (folded / 3)

/-- `_relationship` (the `owners` local in the source is computed but
never used; `ZODIAC_SIGNS.index` raises on an unknown sign name, modelled
by `indexOf` returning the list length — weights are bounded the same
way either way). -/
def relationship (planet : String) (sign : String) : String :=
  let signIndex := Varga.ZODIAC_SIGNS.indexOf sign
  let ruler := signLord signIndex
  if ruler = planet then "own"
  else if ruler ∈ FRIENDS planet then "friend"
  else if ruler ∈ ENEMIES planet then "enemy"
  else "neutral"

/-- The `weights.get(relation, 15.0)` table of `_saptavargaja_bala`. -/
def relationWeight (relation : String) : ℚ :=
  if relation = "own" then 30
  else if relation = "friend" then 20
  else if relation = "neutral" then 15
  else if relation = "enemy" then 10
  else 15

/-- The seven divisions scanned by `_saptavargaja_bala`. -/
def SAPTA_DIVISIONS : List String := ["D1", "D2", "D3", "D7", "D9", "D12", "D30"]

/-- One step of the `_saptavargaja_bala` accumulation: add the
relationship weight when the division's varga summary holds a sign for
the planet, else `continue`. -/
def saptaStep (S : StrengthInputs) (planet : String) (total : ℚ)
    (division : String) : ℚ :=
  match alookup S.vargas division with
  | none => total
  | some chart =>
      match alookup chart planet with
      | none => total
      | some sign => total + relationWeight (relationship planet sign)

/-- `_saptavargaja_bala`: accumulate the relationship weight over the
seven designated divisions. -/
def saptavargajaBala (S : StrengthInputs) (planet : String) : ℚ :=
  SAPTA_DIVISIONS.foldl (saptaStep S planet) 0

/-- `_oja_yugma_bala`: gender-parity bonuses in the birth chart and the
D9 chart. -/
def ojaYugmaBala (S : StrengthInputs) (planet : String)
    (position : PlanetPosition) : ℚ :=
  let signIdx : ℤ := ⌊position.longitude / 30⌋
  let gender := PLANET_GENDERS planet
  let base : ℚ :=
    (if gender = "male" ∧ signIdx % 2 = 0 then 15 else 0)
      + (if gender = "female" ∧ signIdx % 2 = 1 then 15 else 0)
  match (alookup S.vargas "D9").bind (fun chart => alookup chart planet) with
  | none => base
  | some nav =>
      let navIdx := Varga.ZODIAC_SIGNS.indexOf nav
      base + (if gender = "male" ∧ navIdx % 2 = 0 then 15 else 0)
        + (if gender = "female" ∧ navIdx % 2 = 1 then 15 else 0)
        + (if gender = "neutral" ∧ navIdx % 2 = 0 then 10 else 0)

/-- The ascendant used by `_house_for_longitude`:
`houses.get("House 1") or houses.get("Asc", 0.0)` — Python `or` falls
through when House 1 is missing or its value is the falsy 0.0. -/
def ascOf (S : StrengthInputs) : ℚ :=
  match alookup S.houses "House 1" with
  | some v => if v = 0 then (alookup S.houses "Asc").getD 0 else v
  | none => (alookup S.houses "Asc").getD 0

/-- `_house_for_longitude`: `int(((longitude - asc + 360) % 360) // 30) + 1`. -/
def houseForLongitude (S : StrengthInputs) (longitude : ℚ) : ℤ :=
  ⌊qmod (longitude - ascOf S + 360) 360 / 30⌋ + 1

/-- `_kendradi_bala`: 60 / 30 / 15 by house group. -/
def kendradiBala (S : StrengthInputs) (position : PlanetPosition) : ℚ :=
  let house := houseForLongitude S position.longitude
  if house = 1 ∨ house = 4 ∨ house = 7 ∨ house = 10 then 60
  else if house = 2 ∨ house = 5 ∨ house = 8 ∨ house = 11 then 30
  else 15

/-- `_drekkana_bala`: 15 on a gender-decanate match, else 7.5. -/
def drekkanaBala (planet : String) (position : PlanetPosition) : ℚ :=
  let gender := PLANET_GENDERS planet
  let part : ℤ := ⌊qmod position.longitude 30 / 10⌋
  if gender = "male" ∧ part = 0 then 15
  else if gender = "female" ∧ part = 1 then 15
  else if gender = "neutral" ∧ part = 2 then 15
  else 7.5

/-- `_sthana_bala`: the five positional sub-components summed. -/
def sthanaBala (S : StrengthInputs) (planet : String)
    (position : PlanetPosition) : ℚ :=
  uchchaBala planet position + saptavargajaBala S planet
    + ojaYugmaBala S planet position + kendradiBala S position
    + drekkanaBala planet position

/-- `_dig_bala`: 60 minus 10 per circular house step from the optimal
house, floored at 0. -/
def digBala (S : StrengthInputs) (planet : String)
    (position : PlanetPosition) : ℚ :=
  match DIG_BALA_OPTIMA planet with
  | none => 15
  | some optimal =>
      let house := houseForLongitude S position.longitude
      let distance := min ((house - optimal) % 12) ((optimal - house) % 12)
      max 0 (60 - (distance : ℚ) * 10)

/-- `_kala_bala`: the fixed 30/30/20 scheme. -/
def kalaBala (planet : String) : ℚ :=
  if planet = "Sun" ∨ planet = "Jupiter" ∨ planet = "Venus" then 30
  else if planet = "Moon" ∨ planet = "Mars" ∨ planet = "Saturn" then 30
  else 20

/-- `_ayana_bala`: linear in declination, clamped to [0, 60]. -/
def ayanaBala (planet : String) (position : PlanetPosition) : ℚ :=
  let obliquity : ℚ := 23.4367
  let kranti := position.declination
  let value : ℚ :=
    if planet = "Sun" ∨ planet = "Mars" ∨ planet = "Jupiter" ∨ planet = "Venus"
    then 30 * (obliquity + kranti) / obliquity
    else if planet = "Moon" ∨ planet = "Saturn"
    then 30 * (obliquity - kranti) / obliquity
    else 30
  max 0 (min 60 value)

/-- `_cheshta_bala` (the `planet` parameter of the source is unused):
speed-bucketed score. -/
def cheshtaBala (position : PlanetPosition) : ℚ :=
  let speed := position.speed_longitude
  if speed < 0 then 60
  else if speed < 0.5 then 30
  else if speed < 1 then 20
  else 45

/-- The benefic set of `_drig_bala`. -/
def BENEFICS : List String := ["Jupiter", "Venus", "Mercury", "Moon"]

/-- The malefic set of `_drig_bala`. -/
def MALEFICS : List String := ["Saturn", "Mars", "Sun"]

/-- `_aspect_strength`: tiered by `abs((lon1 - lon2 + 180) % 360 - 180)`. -/
def aspectStrength (lon1 lon2 : ℚ) : ℚ :=
  let diff := |qmod (lon1 - lon2 + 180) 360 - 180|
  if diff < 5 then 20
  else if diff < 30 then 10
  else if diff < 60 then 5
  else 0

/-- One step of the `_drig_bala` accumulation over `self.positions`
(`planetLon` stands for `self.positions[planet].longitude`, the scored
planet's own dict entry, skipped by the `other == planet` test). -/
def drigStep (planet : String) (planetLon : ℚ) (total : ℚ)
    (op : String × PlanetPosition) : ℚ :=
  if op.1 = planet then total
  else
    let aspect := aspectStrength planetLon op.2.longitude
    if op.1 ∈ BENEFICS then total + aspect
    else if op.1 ∈ MALEFICS then total - aspect
    else total

/-- `_drig_bala`: signed sum of tiered aspects from benefics and
malefics. -/
def drigBala (S : StrengthInputs) (planet : String) (planetLon : ℚ) : ℚ :=
  S.positions.foldl (drigStep planet planetLon) 0

/-- One row's Total of `shadbala()`: the seven components summed. -/
def shadbalaTotal (S : StrengthInputs) (planet : String)
    (position : PlanetPosition) : ℚ :=
  sthanaBala S planet position + digBala S planet position + kalaBala planet
    + ayanaBala planet position + cheshtaBala position
    + naisargikaBala planet + drigBala S planet position.longitude

/-- The seven Shadbala-scored classical bodies. -/
def scoredBodies : List String :=
  ["Sun", "Moon", "Mars", "Mercury", "Jupiter", "Venus", "Saturn"]

end Strength

-- ======================================================================
-- Theorems
-- ======================================================================

theorem qmod_nonneg (a : ℚ) {m : ℚ} (hm : 0 < m) : 0 ≤ qmod a m := by
  unfold qmod
  have h := Int.floor_le (a / m)
  have : (⌊a / m⌋ : ℚ) * m ≤ a / m * m := by
    exact mul_le_mul_of_nonneg_right h (le_of_lt hm)
  rw [div_mul_cancel₀ a (ne_of_gt hm)] at this
  linarith [this]

theorem qmod_lt (a : ℚ) {m : ℚ} (hm : 0 < m) : qmod a m < m := by
  unfold qmod
  have h := Int.lt_floor_add_one (a / m)
  have : a / m * m < ((⌊a / m⌋ : ℚ) + 1) * m := by
    exact mul_lt_mul_of_pos_right h hm
  rw [div_mul_cancel₀ a (ne_of_gt hm)] at this
  linarith [this]

namespace Varga

theorem signIndexZ_nonneg (L : ℚ) : 0 ≤ signIndexZ L := by
  unfold signIndexZ
  have h0 : (0 : ℚ) ≤ qmod L 360 := qmod_nonneg L (by norm_num)
  have : (0 : ℚ) ≤ qmod L 360 / 30 := by positivity
  exact_mod_cast Int.floor_nonneg.mpr this

theorem signIndexZ_lt (L : ℚ) : signIndexZ L < 12 := by
  unfold signIndexZ
  have h1 : qmod L 360 < 360 := qmod_lt L (by norm_num)
  have : qmod L 360 / 30 < 12 := by linarith [h1]
  calc ⌊qmod L 360 / 30⌋ < 12 := by
        exact Int.floor_lt.mpr (by push_cast; linarith [this])

theorem nthPartZ_nonneg (L : ℚ) (n : ℕ) (hn : 1 ≤ n) : 0 ≤ nthPartZ L n := by
  unfold nthPartZ
  have hn0 : (n : ℤ) ≠ 0 := by exact_mod_cast Nat.one_le_iff_ne_zero.mp hn
  exact Int.emod_nonneg _ hn0

theorem nthPartZ_lt (L : ℚ) (n : ℕ) (hn : 1 ≤ n) : nthPartZ L n < n := by
  unfold nthPartZ
  exact Int.emod_lt_of_pos _ (by exact_mod_cast hn)

theorem uniformDivision_eq_rasi (L : ℚ) (n : ℕ) (hn : 1 ≤ n) :
    uniformDivision L n 0 = rasi L := by
  have hnz : (n : ℤ) ≠ 0 := by exact_mod_cast Nat.one_le_iff_ne_zero.mp hn
  have hnpos : (0 : ℤ) < n := by exact_mod_cast hn
  have hs0 := signIndexZ_nonneg L
  have hs12 := signIndexZ_lt L
  have hp0 := nthPartZ_nonneg L n hn
  have hpn := nthPartZ_lt L n hn
  simp only [uniformDivision, rasi, add_zero]
  set s := signIndexZ L with hs
  set p := nthPartZ L n with hp
  have ht0 : 0 ≤ s * n + p := by positivity
  have htlt : s * n + p < 12 * n := by
    have h1 : s * n ≤ 11 * n := by
      have : s ≤ 11 := by omega
      exact mul_le_mul_of_nonneg_right this (le_of_lt hnpos)
    omega
  rw [Int.emod_eq_of_lt ht0 htlt]
  have hfd : (s * n + p).fdiv n = s := by
    rw [Int.fdiv_eq_ediv _ (le_of_lt hnpos)]
    have hcomm : s * n + p = p + s * n := by ring
    rw [hcomm, Int.add_mul_ediv_right p s hnz, Int.ediv_eq_zero_of_lt hp0 hpn]
    ring
  rw [hfd, Int.emod_eq_of_lt hs0 hs12]

/-- Bounded injectivity of the sign-name table. -/
theorem zodiacSigns_getD_inj :
    ∀ i < 12, ∀ j < 12,
      (ZODIAC_SIGNS.getD i "" = ZODIAC_SIGNS.getD j "" ↔ i = j) := by decide

end Varga

namespace Dasha

/-- A placeholder period used as the `List.getD` fallback. -/
def defaultPeriod : DashaPeriod := ⟨"", 0, 0, 0, none⟩

theorem subPeriod_stop_eq_next_start (pp : DashaPeriod) (l1 l2 : String)
    (h : yearsBefore l1 + DASHA_YEARS l1 = yearsBefore l2) :
    (subPeriod pp l1).stop = (subPeriod pp l2).start := by
  have hq : (yearsBefore l2 : ℚ) = (yearsBefore l1 : ℚ) + (DASHA_YEARS l1 : ℚ) := by
    exact_mod_cast congrArg (fun k : ℕ => (k : ℚ)) h.symm
  simp only [subPeriod, hq]
  ring

end Dasha

/-- C5: for every parent `DashaPeriod`, the 9 sub-periods generated by
`_sub_dashas` partition the parent's span: the first starts at the parent's
start, each period's end is the next period's start, the last ends at the
parent's end, and the durations sum exactly to the parent's duration. -/
theorem claim_C5_sub_dashas_partition_parent (pp : Dasha.DashaPeriod) :
    (Dasha.subDashas pp 1).length = 9 ∧
    ((Dasha.subDashas pp 1).getD 0 Dasha.defaultPeriod).start = pp.start ∧
    (∀ i, i < 8 →
      ((Dasha.subDashas pp 1).getD i Dasha.defaultPeriod).stop
        = ((Dasha.subDashas pp 1).getD (i + 1) Dasha.defaultPeriod).start) ∧
    ((Dasha.subDashas pp 1).getD 8 Dasha.defaultPeriod).stop = pp.stop ∧
    ((Dasha.subDashas pp 1).map (fun q => q.stop - q.start)).sum
      = pp.stop - pp.start := by
  refine ⟨rfl, ?_, ?_, ?_, ?_⟩
  · show (Dasha.subPeriod pp "Ketu").start = pp.start
    have h0 : (Dasha.yearsBefore "Ketu" : ℚ) = 0 := by
      have : Dasha.yearsBefore "Ketu" = 0 := by decide
      rw [this]; norm_num
    simp only [Dasha.subPeriod, h0]
    ring
  · intro i hi
    interval_cases i
    · exact Dasha.subPeriod_stop_eq_next_start pp "Ketu" "Venus" (by decide)
    · exact Dasha.subPeriod_stop_eq_next_start pp "Venus" "Sun" (by decide)
    · exact Dasha.subPeriod_stop_eq_next_start pp "Sun" "Moon" (by decide)
    · exact Dasha.subPeriod_stop_eq_next_start pp "Moon" "Mars" (by decide)
    · exact Dasha.subPeriod_stop_eq_next_start pp "Mars" "Rahu" (by decide)
    · exact Dasha.subPeriod_stop_eq_next_start pp "Rahu" "Jupiter" (by decide)
    · exact Dasha.subPeriod_stop_eq_next_start pp "Jupiter" "Saturn" (by decide)
    · exact Dasha.subPeriod_stop_eq_next_start pp "Saturn" "Mercury" (by decide)
  · show (Dasha.subPeriod pp "Mercury").stop = pp.stop
    have h1 : (Dasha.yearsBefore "Mercury" : ℚ) = 103 := by
      have : Dasha.yearsBefore "Mercury" = 103 := by decide
      rw [this]; norm_num
    have h2 : (Dasha.DASHA_YEARS "Mercury" : ℚ) = 17 := by
      have : Dasha.DASHA_YEARS "Mercury" = 17 := by decide
      rw [this]; norm_num
    simp only [Dasha.subPeriod, h1, h2]
    ring
  · show ((Dasha.DASHA_ORDER.map (Dasha.subPeriod pp)).map
      (fun q => q.stop - q.start)).sum = pp.stop - pp.start
    have hy : ∀ l : String,
        (Dasha.subPeriod pp l).stop - (Dasha.subPeriod pp l).start
          = (pp.stop - pp.start) * ((Dasha.DASHA_YEARS l : ℚ) / 120) := by
      intro l
      simp only [Dasha.subPeriod]
      ring
    simp only [Dasha.DASHA_ORDER, List.map_cons, List.map_nil, List.sum_cons,
      List.sum_nil, hy]
    have c1 : (Dasha.DASHA_YEARS "Ketu" : ℚ) = 7 := by
      have : Dasha.DASHA_YEARS "Ketu" = 7 := by decide
      rw [this]; norm_num
    have c2 : (Dasha.DASHA_YEARS "Venus" : ℚ) = 20 := by
      have : Dasha.DASHA_YEARS "Venus" = 20 := by decide
      rw [this]; norm_num
    have c3 : (Dasha.DASHA_YEARS "Sun" : ℚ) = 6 := by
      have : Dasha.DASHA_YEARS "Sun" = 6 := by decide
      rw [this]; norm_num
    have c4 : (Dasha.DASHA_YEARS "Moon" : ℚ) = 10 := by
      have : Dasha.DASHA_YEARS "Moon" = 10 := by decide
      rw [this]; norm_num
    have c5 : (Dasha.DASHA_YEARS "Mars" : ℚ) = 7 := by
      have : Dasha.DASHA_YEARS "Mars" = 7 := by decide
      rw [this]; norm_num
    have c6 : (Dasha.DASHA_YEARS "Rahu" : ℚ) = 18 := by
      have : Dasha.DASHA_YEARS "Rahu" = 18 := by decide
      rw [this]; norm_num
    have c7 : (Dasha.DASHA_YEARS "Jupiter" : ℚ) = 16 := by
      have : Dasha.DASHA_YEARS "Jupiter" = 16 := by decide
      rw [this]; norm_num
    have c8 : (Dasha.DASHA_YEARS "Saturn" : ℚ) = 19 := by
      have : Dasha.DASHA_YEARS "Saturn" = 19 := by decide
      rw [this]; norm_num
    have c9 : (Dasha.DASHA_YEARS "Mercury" : ℚ) = 17 := by
      have : Dasha.DASHA_YEARS "Mercury" = 17 := by decide
      rw [this]; norm_num
    rw [c1, c2, c3, c4, c5, c6, c7, c8, c9]
    ring

/-- C5 witness: the partition properties evaluated at a concrete parent
period (Venus, days 0 to 240, level 1). -/
theorem claim_C5_witness :
    ((Dasha.subDashas ⟨"Venus", 0, 240, 1, none⟩ 1).getD 3
        Dasha.defaultPeriod).stop
      = ((Dasha.subDashas ⟨"Venus", 0, 240, 1, none⟩ 1).getD 4
        Dasha.defaultPeriod).start :=
  (claim_C5_sub_dashas_partition_parent ⟨"Venus", 0, 240, 1, none⟩).2.2.1 3
    (by norm_num)

/-- C1: evaluation at the failing input.  For a parent period ruled by
Venus, `_sub_dashas` produces sub-period lords in the fixed order
`DASHA_ORDER` beginning with Ketu — not beginning with the parent's own
lord Venus as the claim (and the classical Vimshottari rule) requires. -/
theorem claim_C1_first_sub_lord_is_always_ketu :
    ((Dasha.subDashas ⟨"Venus", 0, 240, 1, none⟩ 1).map Dasha.DashaPeriod.lord
      = Dasha.DASHA_ORDER) ∧
    ((Dasha.subDashas ⟨"Venus", 0, 240, 1, none⟩ 1).getD 0
        Dasha.defaultPeriod).lord = "Ketu" ∧
    ("Ketu" : String) ≠ "Venus" := by
  refine ⟨?_, rfl, by decide⟩
  rfl

/-- C2: for every division number `n ≥ 1` and every longitude, the generic
uniform-division mapping of `_uniform_division` (with the default offset 0)
returns exactly the same sign as the D1 whole-sign mapping `rasi`; in
particular every division routed through `_uniform_division` by `get_varga`
assigns each longitude its natal rasi sign. -/
theorem claim_C2_uniform_division_returns_rasi :
    (∀ n : ℕ, 1 ≤ n → ∀ L : ℚ, Varga.uniformDivision L n 0 = Varga.rasi L) ∧
    (∀ dn ∈ Varga.uniformDivisionNames, ∀ L : ℚ,
      (Varga.getVarga dn.1).map (fun f => f L) = some (Varga.rasi L)) := by
  constructor
  · exact fun n hn L => Varga.uniformDivision_eq_rasi L n hn
  · intro dn hdn L
    fin_cases hdn
    · exact congrArg some (Varga.uniformDivision_eq_rasi L 2 (by norm_num))
    · exact congrArg some (Varga.uniformDivision_eq_rasi L 4 (by norm_num))
    · exact congrArg some (Varga.uniformDivision_eq_rasi L 5 (by norm_num))
    · exact congrArg some (Varga.uniformDivision_eq_rasi L 6 (by norm_num))
    · exact congrArg some (Varga.uniformDivision_eq_rasi L 7 (by norm_num))
    · exact congrArg some (Varga.uniformDivision_eq_rasi L 8 (by norm_num))
    · exact congrArg some (Varga.uniformDivision_eq_rasi L 10 (by norm_num))
    · exact congrArg some (Varga.uniformDivision_eq_rasi L 11 (by norm_num))
    · exact congrArg some (Varga.uniformDivision_eq_rasi L 12 (by norm_num))
    · exact congrArg some (Varga.uniformDivision_eq_rasi L 16 (by norm_num))
    · exact congrArg some (Varga.uniformDivision_eq_rasi L 20 (by norm_num))
    · exact congrArg some (Varga.uniformDivision_eq_rasi L 24 (by norm_num))
    · exact congrArg some (Varga.uniformDivision_eq_rasi L 27 (by norm_num))
    · exact congrArg some (Varga.uniformDivision_eq_rasi L 30 (by norm_num))
    · exact congrArg some (Varga.uniformDivision_eq_rasi L 40 (by norm_num))
    · exact congrArg some (Varga.uniformDivision_eq_rasi L 45 (by norm_num))
    · exact congrArg some (Varga.uniformDivision_eq_rasi L 60 (by norm_num))

/-- C2 witness: the equalities evaluated at division 2 and longitude 95,
and at the `get_varga` route for D10 and longitude 200. -/
theorem claim_C2_witness :
    Varga.uniformDivision 95 2 0 = Varga.rasi 95 ∧
    (Varga.getVarga "D10").map (fun f => f 200) = some (Varga.rasi 200) :=
  ⟨claim_C2_uniform_division_returns_rasi.1 2 (by norm_num) 95,
   claim_C2_uniform_division_returns_rasi.2 ("D10", 10) (by decide) 200⟩

namespace Varga

theorem getD_eq_iff_of_lt (a b : ℤ) (ha0 : 0 ≤ a) (ha : a < 12)
    (hb0 : 0 ≤ b) (hb : b < 12) :
    (ZODIAC_SIGNS.getD a.toNat "" = ZODIAC_SIGNS.getD b.toNat "" ↔ a = b) := by
  have h1 : a.toNat < 12 := by omega
  have h2 : b.toNat < 12 := by omega
  rw [zodiacSigns_getD_inj a.toNat h1 b.toNat h2]
  omega

end Varga

/-- C3 counterexample: at longitude 10° the named D3 variant gives Leo
while the general uniform rule at n = 3 gives Aries, and at longitude 5°
the named D9 variant gives Taurus while the uniform rule at n = 9 gives
Aries — so the named variants do not return the same sign as the general
uniform rule. -/
theorem claim_C3_counterexample :
    ¬ (Varga.drekkana 10 = Varga.uniformDivision 10 3 0 ∧
       Varga.navamsa 5 = Varga.uniformDivision 5 9 0) := by
  have hs10 : Varga.signIndexZ 10 = 0 := by
    unfold Varga.signIndexZ qmod; norm_num
  have hp3 : Varga.nthPartZ 10 3 = 1 := by
    unfold Varga.nthPartZ qmod; norm_num
  have hs5 : Varga.signIndexZ 5 = 0 := by
    unfold Varga.signIndexZ qmod; norm_num
  have hp9 : Varga.nthPartZ 5 9 = 1 := by
    unfold Varga.nthPartZ qmod; norm_num
  rintro ⟨h1, h2⟩
  rw [Varga.uniformDivision_eq_rasi 10 3 (by norm_num)] at h1
  rw [Varga.uniformDivision_eq_rasi 5 9 (by norm_num)] at h2
  have hd : Varga.drekkana 10 = "Leo" := by
    simp only [Varga.drekkana, hs10, hp3]; decide
  have hr10 : Varga.rasi 10 = "Aries" := by
    simp only [Varga.rasi, hs10]; decide
  rw [hd, hr10] at h1
  exact absurd h1 (by decide)

/-- C3 amended: the named D3 and D9 variants agree with the general
uniform rule (which always returns the natal rasi sign) at a longitude
exactly when their own target index reduces to the sign index — i.e.
`(sign + part*4) % 12 = sign` for drekkana and
`(sign*9 + part) % 12 = sign` for navamsa; in general they differ. -/
theorem claim_C3_amended (L : ℚ) :
    (Varga.drekkana L = Varga.uniformDivision L 3 0 ↔
      (Varga.signIndexZ L + Varga.nthPartZ L 3 * 4) % 12 = Varga.signIndexZ L) ∧
    (Varga.navamsa L = Varga.uniformDivision L 9 0 ↔
      (Varga.signIndexZ L * 9 + Varga.nthPartZ L 9) % 12 = Varga.signIndexZ L) := by
  have hs0 := Varga.signIndexZ_nonneg L
  have hs12 := Varga.signIndexZ_lt L
  constructor
  · rw [Varga.uniformDivision_eq_rasi L 3 (by norm_num)]
    simp only [Varga.drekkana, Varga.rasi]
    exact Varga.getD_eq_iff_of_lt _ _
      (Int.emod_nonneg _ (by norm_num)) (Int.emod_lt_of_pos _ (by norm_num))
      hs0 hs12
  · rw [Varga.uniformDivision_eq_rasi L 9 (by norm_num)]
    simp only [Varga.navamsa, Varga.rasi]
    exact Varga.getD_eq_iff_of_lt _ _
      (Int.emod_nonneg _ (by norm_num)) (Int.emod_lt_of_pos _ (by norm_num))
      hs0 hs12

/-- The linear-projection remainder `a - ⌊a/m⌋*m` is less than `m`. -/
theorem floor_remainder_lt (a : ℚ) {m : ℚ} (hm : 0 < m) :
    a - (⌊a / m⌋ : ℚ) * m < m := by
  have h := qmod_lt a hm
  unfold qmod at h
  linarith [h]

/-- C7: each of the four Panchang segment end instants (tithi, nakshatra,
yoga, karana) is strictly after the query instant, for every query instant
and arbitrary Sun/Moon longitudes and speeds, the projection speed being
floored at 0.1 degrees/day. -/
theorem claim_C7_panchang_ends_strictly_after (tWhen : ℚ)
    (sun moon : Panchang.BodyState) :
    tWhen < Panchang.tithiEnd tWhen sun moon ∧
    tWhen < Panchang.nakshatraEnd tWhen moon ∧
    tWhen < Panchang.yogaEnd tWhen sun moon ∧
    tWhen < Panchang.karanaEnd tWhen sun moon := by
  have hrel : (0 : ℚ) < Panchang.relativeSpeed moon.speed sun.speed := by
    have := le_max_right |moon.speed - sun.speed| ((1 : ℚ) / 10)
    unfold Panchang.relativeSpeed
    linarith [this]
  refine ⟨?_, ?_, ?_, ?_⟩
  · have hrem := floor_remainder_lt (qmod (moon.longitude - sun.longitude) 360)
      (show (0:ℚ) < Panchang.TITHI_SPAN by norm_num [Panchang.TITHI_SPAN])
    simp only [Panchang.tithiEnd, Panchang.timeDeltaFromDegrees]
    have hpos : 0 < (Panchang.TITHI_SPAN -
        (qmod (moon.longitude - sun.longitude) 360 -
          (⌊qmod (moon.longitude - sun.longitude) 360 / Panchang.TITHI_SPAN⌋ : ℚ)
            * Panchang.TITHI_SPAN)) /
        Panchang.relativeSpeed moon.speed sun.speed := by
      apply div_pos _ hrel
      linarith [hrem]
    linarith [hpos]
  · have hrem := qmod_lt moon.longitude
      (show (0:ℚ) < Panchang.NAKSHATRA_SPAN by norm_num [Panchang.NAKSHATRA_SPAN])
    have hsp : (0 : ℚ) < max |moon.speed| (1 / 10) := by
      have := le_max_right |moon.speed| ((1 : ℚ) / 10)
      linarith [this]
    simp only [Panchang.nakshatraEnd, Panchang.timeDeltaFromDegrees]
    have hpos : 0 < (Panchang.NAKSHATRA_SPAN - qmod moon.longitude Panchang.NAKSHATRA_SPAN) /
        max |moon.speed| (1 / 10) := by
      apply div_pos _ hsp
      linarith [hrem]
    linarith [hpos]
  · have hrem := floor_remainder_lt (qmod (sun.longitude + moon.longitude) 360)
      (show (0:ℚ) < Panchang.YOGA_SPAN by norm_num [Panchang.YOGA_SPAN])
    have hsp : (0 : ℚ) < max (|sun.speed| + |moon.speed|) (1 / 10) := by
      have := le_max_right (|sun.speed| + |moon.speed|) ((1 : ℚ) / 10)
      linarith [this]
    simp only [Panchang.yogaEnd, Panchang.timeDeltaFromDegrees]
    have hpos : 0 < (Panchang.YOGA_SPAN -
        (qmod (sun.longitude + moon.longitude) 360 -
          (⌊qmod (sun.longitude + moon.longitude) 360 / Panchang.YOGA_SPAN⌋ : ℚ)
            * Panchang.YOGA_SPAN)) /
        max (|sun.speed| + |moon.speed|) (1 / 10) := by
      apply div_pos _ hsp
      linarith [hrem]
    linarith [hpos]
  · have hrem := floor_remainder_lt (qmod (moon.longitude - sun.longitude) 360)
      (show (0:ℚ) < Panchang.KARANA_SPAN by norm_num [Panchang.KARANA_SPAN])
    simp only [Panchang.karanaEnd, Panchang.timeDeltaFromDegrees]
    have hpos : 0 < (Panchang.KARANA_SPAN -
        (qmod (moon.longitude - sun.longitude) 360 -
          (⌊qmod (moon.longitude - sun.longitude) 360 / Panchang.KARANA_SPAN⌋ : ℚ)
            * Panchang.KARANA_SPAN)) /
        Panchang.relativeSpeed moon.speed sun.speed := by
      apply div_pos _ hrel
      linarith [hrem]
    linarith [hpos]

namespace AI

theorem temporalMultiplier_three (r y g : DailyPeriod) (w : ℚ)
    (hr : r.name = "Rahu Kalam") (hy : y.name = "Yamaganda")
    (hg : g.name = "Gulika Kalam") :
    temporalMultiplier [r, y, g] w =
      (if r.start ≤ w ∧ w < r.stop then (0.6 : ℚ) else 1) *
      (if y.start ≤ w ∧ w < y.stop then (0.75 : ℚ) else 1) *
      (if g.start ≤ w ∧ w < g.stop then (0.8 : ℚ) else 1) := by
  simp only [temporalMultiplier, List.foldl_cons, List.foldl_nil, hr, hy, hg]
  by_cases h1 : r.start ≤ w ∧ w < r.stop <;>
    by_cases h2 : y.start ≤ w ∧ w < y.stop <;>
      by_cases h3 : g.start ≤ w ∧ w < g.stop <;>
        simp [h1, h2, h3]

end AI

/-- C8: with identical engine outputs, an instant that falls only inside
Rahu Kalam scores exactly 0.6 times an instant inside no inauspicious
window; and in general the three window penalties (0.6, 0.75, 0.8) compose
multiplicatively on the pre-multiplier score, never additively. -/
theorem claim_C8_rahu_kalam_multiplicative
    (sb bh ish imp nb dp : ℚ) (r y g : AI.DailyPeriod) (wIn wOut : ℚ)
    (hr : r.name = "Rahu Kalam") (hy : y.name = "Yamaganda")
    (hg : g.name = "Gulika Kalam")
    (hinR : r.start ≤ wIn ∧ wIn < r.stop)
    (hinY : ¬(y.start ≤ wIn ∧ wIn < y.stop))
    (hinG : ¬(g.start ≤ wIn ∧ wIn < g.stop))
    (houtR : ¬(r.start ≤ wOut ∧ wOut < r.stop))
    (houtY : ¬(y.start ≤ wOut ∧ wOut < y.stop))
    (houtG : ¬(g.start ≤ wOut ∧ wOut < g.stop)) :
    AI.intervalScore sb bh ish imp nb dp [r, y, g] wIn =
      0.6 * AI.intervalScore sb bh ish imp nb dp [r, y, g] wOut ∧
    (∀ w : ℚ, AI.intervalScore sb bh ish imp nb dp [r, y, g] w =
      (sb + bh + ish * imp * 10 + nb + dp) *
        ((if r.start ≤ w ∧ w < r.stop then (0.6 : ℚ) else 1) *
         (if y.start ≤ w ∧ w < y.stop then (0.75 : ℚ) else 1) *
         (if g.start ≤ w ∧ w < g.stop then (0.8 : ℚ) else 1))) := by
  constructor
  · unfold AI.intervalScore
    rw [AI.temporalMultiplier_three r y g wIn hr hy hg,
      AI.temporalMultiplier_three r y g wOut hr hy hg,
      if_pos hinR, if_neg hinY, if_neg hinG,
      if_neg houtR, if_neg houtY, if_neg houtG]
    ring
  · intro w
    unfold AI.intervalScore
    rw [AI.temporalMultiplier_three r y g w hr hy hg]

/-- C8 witness: the multiplicative relation evaluated at a concrete pair
of instants and concrete windows. -/
theorem claim_C8_witness :
    AI.intervalScore 100 20 1 (3 / 2) 2 (-2)
        [⟨"Rahu Kalam", 0, 1⟩, ⟨"Yamaganda", 2, 3⟩, ⟨"Gulika Kalam", 4, 5⟩]
        (1 / 2) =
      0.6 * AI.intervalScore 100 20 1 (3 / 2) 2 (-2)
        [⟨"Rahu Kalam", 0, 1⟩, ⟨"Yamaganda", 2, 3⟩, ⟨"Gulika Kalam", 4, 5⟩]
        10 :=
  (claim_C8_rahu_kalam_multiplicative 100 20 1 (3 / 2) 2 (-2)
    ⟨"Rahu Kalam", 0, 1⟩ ⟨"Yamaganda", 2, 3⟩ ⟨"Gulika Kalam", 4, 5⟩
    (1 / 2) 10 rfl rfl rfl (by norm_num) (by norm_num) (by norm_num)
    (by norm_num) (by norm_num) (by norm_num)).1

namespace AI

theorem mem_orderedInsertIdx :
    ∀ (x b : ℕ × ℚ) (l : List (ℕ × ℚ)),
      b ∈ orderedInsertIdx x l ↔ b = x ∨ b ∈ l
  | x, b, [] => by simp [orderedInsertIdx]
  | x, b, y :: ys => by
      by_cases hxy : x.2 ≤ y.2
      · simp only [orderedInsertIdx, if_pos hxy, List.mem_cons]
      · simp only [orderedInsertIdx, if_neg hxy, List.mem_cons,
          mem_orderedInsertIdx x b ys]
        tauto

theorem orderedInsertIdx_pairwise :
    ∀ (x : ℕ × ℚ) (l : List (ℕ × ℚ)),
      l.Pairwise (fun a b => a.2 ≤ b.2) →
      (orderedInsertIdx x l).Pairwise (fun a b => a.2 ≤ b.2)
  | x, [], _ => by simp [orderedInsertIdx]
  | x, y :: ys, h => by
      rw [List.pairwise_cons] at h
      obtain ⟨hy, hys⟩ := h
      by_cases hxy : x.2 ≤ y.2
      · simp only [orderedInsertIdx, if_pos hxy]
        refine List.Pairwise.cons ?_ (List.Pairwise.cons hy hys)
        intro b hb
        rcases List.mem_cons.mp hb with rfl | hb
        · exact hxy
        · exact le_trans hxy (hy b hb)
      · simp only [orderedInsertIdx, if_neg hxy]
        refine List.Pairwise.cons ?_ (orderedInsertIdx_pairwise x ys hys)
        intro b hb
        rcases (mem_orderedInsertIdx x b ys).mp hb with rfl | hb
        · exact le_of_not_le hxy
        · exact hy b hb

theorem sortAscIdx_pairwise :
    ∀ l : List (ℕ × ℚ), (sortAscIdx l).Pairwise (fun a b => a.2 ≤ b.2)
  | [] => by simp [sortAscIdx]
  | x :: xs => orderedInsertIdx_pairwise x _ (sortAscIdx_pairwise xs)

theorem orderedInsertIdx_length :
    ∀ (x : ℕ × ℚ) (l : List (ℕ × ℚ)),
      (orderedInsertIdx x l).length = l.length + 1
  | _, [] => rfl
  | x, y :: ys => by
      by_cases hxy : x.2 ≤ y.2 <;>
        simp [orderedInsertIdx, hxy, orderedInsertIdx_length x ys]

theorem sortAscIdx_length :
    ∀ l : List (ℕ × ℚ), (sortAscIdx l).length = l.length
  | [] => rfl
  | x :: xs => by
      simp [sortAscIdx, orderedInsertIdx_length, sortAscIdx_length xs]

end AI

/-- C9 counterexample: two intervals with equal scores come out in
reversed chronological order — original row 1 before original row 0 —
so the tie order is not the original submission order. -/
theorem claim_C9_counterexample :
    AI.sortValuesDesc [10, 10] = [(1, 10), (0, 10)] ∧
    AI.sortValuesDesc [10, 10] ≠ [(0, 10), (1, 10)] := by decide

/-- C9 amended: the rows returned by `predict` are sorted in descending
order of score (and are as many as the input intervals), but equal scores
are not kept in original chronological order: the reversed ascending sort
puts later equal-score rows first. -/
theorem claim_C9_amended (scores : List ℚ) :
    (AI.sortValuesDesc scores).Pairwise (fun a b => b.2 ≤ a.2) ∧
    (AI.sortValuesDesc scores).length = scores.length := by
  constructor
  · unfold AI.sortValuesDesc
    rw [List.pairwise_reverse]
    exact AI.sortAscIdx_pairwise _
  · unfold AI.sortValuesDesc
    rw [List.length_reverse, AI.sortAscIdx_length, List.enum_length]

/-- C10: the fallback `sunrise_sunset` returns an absent result exactly
when the solar-hour-angle arccos argument `cos_h` (computed from the
civil-twilight zenith) falls outside [-1, 1] for the sunrise or the
sunset computation of the date (polar day or polar night); in every other
case it returns a `RiseSetTimes` holding both a sunrise and a sunset.
The absence is an `Option`, not an error. -/
theorem claim_C10_fallback_absent_iff_cos_h_out_of_range
    (rise sets : Ephemeris.SolarTrig) (lngHour tz : ℚ) :
    Ephemeris.sunriseSunsetFallback rise sets lngHour tz = none ↔
      (Ephemeris.cosH rise > 1 ∨ Ephemeris.cosH rise < -1 ∨
       Ephemeris.cosH sets > 1 ∨ Ephemeris.cosH sets < -1) := by
  unfold Ephemeris.sunriseSunsetFallback Ephemeris.approximateRiseSet
  by_cases h1 : Ephemeris.cosH rise > 1 <;>
    by_cases h2 : Ephemeris.cosH rise < -1 <;>
      by_cases h3 : Ephemeris.cosH sets > 1 <;>
        by_cases h4 : Ephemeris.cosH sets < -1 <;>
          simp [h1, h2, h3, h4]

namespace Ashtakavarga

theorem binduFold_le_one (pattern : List ℕ) (b : ℤ) (h : ℕ) :
    ∀ (l : List ℕ) (acc : ℕ), acc ≤ 1 →
      (l.foldl (fun acc offset =>
        if pattern.getD offset 0 ≠ 0 ∧ ((b + offset) % 12).toNat + 1 = h
        then 1 else acc) acc) ≤ 1
  | [], _, ha => ha
  | o :: os, acc, ha => by
      simp only [List.foldl_cons]
      apply binduFold_le_one pattern b h os
      by_cases hc : pattern.getD o 0 ≠ 0 ∧ ((b + o) % 12).toNat + 1 = h
      · rw [if_pos hc]
      · rw [if_neg hc]; exact ha

theorem binduCell_le_one (pattern : List ℕ) (pos : ℚ) (h : ℕ) :
    binduCell pattern pos h ≤ 1 := by
  simp only [binduCell]
  exact binduFold_le_one pattern _ h (List.range 12) 0 (by norm_num)

theorem contributorRow_le_one (rules : List (String × List ℕ))
    (positions : List (String × ℚ)) (asc : ℚ)
    (contributor : String) (h : ℕ) :
    contributorRow rules positions asc contributor h ≤ 1 := by
  unfold contributorRow
  rcases lookup? rules contributor with _ | pat <;>
    rcases positionOf positions asc contributor with _ | ps <;>
      simp
  exact binduCell_le_one pat ps h

theorem bhinnaTotal_le_eight (target : String)
    (positions : List (String × ℚ)) (asc : ℚ) (h : ℕ) :
    bhinnaTotal target positions asc h ≤ 8 := by
  unfold bhinnaTotal
  have hb : ∀ x ∈ (contributors.map
      (fun c => contributorRow (ASHTAKA_RULES target) positions asc c h)),
      x ≤ 1 := by
    intro x hx
    rcases List.mem_map.mp hx with ⟨c, _, rfl⟩
    exact contributorRow_le_one _ _ _ _ _
  have := List.sum_le_card_nsmul _ 1 hb
  simpa [contributors, planets7] using this

end Ashtakavarga

/-- C6: for every input position mapping and ascendant, every per-target
Bhinnashtakavarga Total-row value lies in [0, 8] for each house, and the
composite Sarvashtakavarga Total-row value lies in [0, 56] (the lower
bounds are inherent to the ℕ-valued cells). -/
theorem claim_C6_ashtakavarga_total_bounds
    (positions : List (String × ℚ)) (asc : ℚ) :
    (∀ target ∈ Ashtakavarga.planets7, ∀ h : ℕ,
      Ashtakavarga.bhinnaTotal target positions asc h ≤ 8) ∧
    (∀ h : ℕ, Ashtakavarga.sarvaTotal positions asc h ≤ 56) := by
  constructor
  · intro target _ h
    exact Ashtakavarga.bhinnaTotal_le_eight target positions asc h
  · intro h
    unfold Ashtakavarga.sarvaTotal
    have hb : ∀ x ∈ (Ashtakavarga.planets7.map
        (fun p => Ashtakavarga.bhinnaTotal p positions asc h)), x ≤ 8 := by
      intro x hx
      rcases List.mem_map.mp hx with ⟨p, _, rfl⟩
      exact Ashtakavarga.bhinnaTotal_le_eight _ _ _ _
    have := List.sum_le_card_nsmul _ 8 hb
    simpa [Ashtakavarga.planets7] using this

/-- C6 witness: the Total-row bounds applied to a concrete chart (Sun at
123°, ascendant 45°, house 5). -/
theorem claim_C6_witness :
    Ashtakavarga.bhinnaTotal "Sun" [("Sun", 123)] 45 5 ≤ 8 ∧
    Ashtakavarga.sarvaTotal [("Sun", 123)] 45 5 ≤ 56 :=
  ⟨(claim_C6_ashtakavarga_total_bounds [("Sun", 123)] 45).1 "Sun" (by decide) 5,
   (claim_C6_ashtakavarga_total_bounds [("Sun", 123)] 45).2 5⟩

namespace Strength

theorem relationWeight_nonneg (relation : String) :
    0 ≤ relationWeight relation := by
  unfold relationWeight
  split_ifs <;> norm_num

theorem saptaStep_ge (S : StrengthInputs) (planet : String) (total : ℚ)
    (division : String) : total ≤ saptaStep S planet total division := by
  unfold saptaStep
  split
  · exact le_refl _
  · split
    · exact le_refl _
    · rename_i sign heq
      linarith [relationWeight_nonneg (relationship planet sign)]

theorem saptaFold_ge (S : StrengthInputs) (planet : String) :
    ∀ (l : List String) (acc : ℚ), acc ≤ l.foldl (saptaStep S planet) acc
  | [], _ => le_refl _
  | d :: ds, acc => by
      simp only [List.foldl_cons]
      exact le_trans (saptaStep_ge S planet acc d)
        (saptaFold_ge S planet ds _)

theorem saptavargajaBala_nonneg (S : StrengthInputs) (planet : String) :
    0 ≤ saptavargajaBala S planet := by
  unfold saptavargajaBala
  exact saptaFold_ge S planet SAPTA_DIVISIONS 0

theorem uchchaBala_nonneg (planet : String) (position : PlanetPosition) :
    0 ≤ uchchaBala planet position := by
  unfold uchchaBala
  split
  · norm_num
  · rename_i exalt _
    have h1 : 0 ≤ qmod (position.longitude - qmod (exalt + 180) 360 + 360) 360 :=
      qmod_nonneg _ (by norm_num)
    have h2 : qmod (position.longitude - qmod (exalt + 180) 360 + 360) 360 < 360 :=
      qmod_lt _ (by norm_num)
    dsimp only
    split_ifs with hgt
    · exact le_min (by norm_num) (by linarith)
    · exact le_min (by norm_num) (by linarith)

theorem ojaYugmaBala_nonneg (S : StrengthInputs) (planet : String)
    (position : PlanetPosition) : 0 ≤ ojaYugmaBala S planet position := by
  simp only [ojaYugmaBala]
  split <;> split_ifs <;> norm_num

theorem kendradiBala_ge (S : StrengthInputs) (position : PlanetPosition) :
    15 ≤ kendradiBala S position := by
  simp only [kendradiBala]
  split_ifs <;> norm_num

theorem drekkanaBala_ge (planet : String) (position : PlanetPosition) :
    15 / 2 ≤ drekkanaBala planet position := by
  simp only [drekkanaBala]
  split_ifs <;> norm_num

theorem sthanaBala_ge (S : StrengthInputs) (planet : String)
    (position : PlanetPosition) : 45 / 2 ≤ sthanaBala S planet position := by
  unfold sthanaBala
  have h1 := uchchaBala_nonneg planet position
  have h2 := saptavargajaBala_nonneg S planet
  have h3 := ojaYugmaBala_nonneg S planet position
  have h4 := kendradiBala_ge S position
  have h5 := drekkanaBala_ge planet position
  linarith

theorem digBala_nonneg (S : StrengthInputs) (planet : String)
    (position : PlanetPosition) : 0 ≤ digBala S planet position := by
  unfold digBala
  split
  · norm_num
  · exact le_max_left 0 _

theorem kalaBala_ge (planet : String) : 20 ≤ kalaBala planet := by
  unfold kalaBala
  split_ifs <;> norm_num

theorem ayanaBala_nonneg (planet : String) (position : PlanetPosition) :
    0 ≤ ayanaBala planet position := by
  simp only [ayanaBala]
  exact le_max_left 0 _

theorem cheshtaBala_ge (position : PlanetPosition) :
    20 ≤ cheshtaBala position := by
  simp only [cheshtaBala]
  split_ifs <;> norm_num

theorem aspectStrength_nonneg (lon1 lon2 : ℚ) :
    0 ≤ aspectStrength lon1 lon2 := by
  simp only [aspectStrength]
  split_ifs <;> norm_num

theorem aspectStrength_le (lon1 lon2 : ℚ) : aspectStrength lon1 lon2 ≤ 20 := by
  simp only [aspectStrength]
  split_ifs <;> norm_num

theorem drigStep_ge (planet : String) (planetLon : ℚ) (total : ℚ)
    (op : String × PlanetPosition) :
    (if op.1 ∈ MALEFICS then total - 20 else total)
      ≤ drigStep planet planetLon total op := by
  have ha0 := aspectStrength_nonneg planetLon op.2.longitude
  have ha20 := aspectStrength_le planetLon op.2.longitude
  simp only [drigStep]
  split_ifs <;> linarith

end Strength

namespace Strength

theorem drigFold_ge (planet : String) (planetLon : ℚ) :
    ∀ (l : List (String × PlanetPosition)) (acc : ℚ),
      acc - 20 * (((l.map Prod.fst).count "Saturn"
        + (l.map Prod.fst).count "Mars"
        + (l.map Prod.fst).count "Sun" : ℕ) : ℚ)
      ≤ l.foldl (drigStep planet planetLon) acc
  | [], acc => by simp
  | x :: r, acc => by
      have IH := drigFold_ge planet planetLon r (drigStep planet planetLon acc x)
      have hstep := drigStep_ge planet planetLon acc x
      simp only [List.foldl_cons, List.map_cons, List.count_cons]
      by_cases hm : x.1 ∈ MALEFICS
      · rw [if_pos hm] at hstep
        have hone : x.1 = "Saturn" ∨ x.1 = "Mars" ∨ x.1 = "Sun" := by
          simpa [MALEFICS] using hm
        rcases hone with h | h | h <;>
          · rw [h]
            simp only [List.count_cons] at IH
            simp
            push_cast at IH
            linarith
      · rw [if_neg hm] at hstep
        have hne1 : ¬ x.1 = "Saturn" := fun e => hm (by simp [MALEFICS, e])
        have hne2 : ¬ x.1 = "Mars" := fun e => hm (by simp [MALEFICS, e])
        have hne3 : ¬ x.1 = "Sun" := fun e => hm (by simp [MALEFICS, e])
        simp [hne1, hne2, hne3, Ne.symm hne1, Ne.symm hne2, Ne.symm hne3]
        push_cast at IH
        linarith

theorem drigBala_ge_of_nodup (S : StrengthInputs) (planet : String)
    (planetLon : ℚ) (h : (S.positions.map Prod.fst).Nodup) :
    -60 ≤ drigBala S planet planetLon := by
  unfold drigBala
  have hf := drigFold_ge planet planetLon S.positions 0
  have hc := List.nodup_iff_count_le_one.mp h
  have h1 := hc "Saturn"
  have h2 := hc "Mars"
  have h3 := hc "Sun"
  have hsum : (S.positions.map Prod.fst).count "Saturn"
      + (S.positions.map Prod.fst).count "Mars"
      + (S.positions.map Prod.fst).count "Sun" ≤ 3 := by omega
  have hq : (((S.positions.map Prod.fst).count "Saturn"
      + (S.positions.map Prod.fst).count "Mars"
      + (S.positions.map Prod.fst).count "Sun" : ℕ) : ℚ) ≤ 3 := by
    exact_mod_cast hsum
  linarith

end Strength

/-- C4: for each of the seven Shadbala-scored bodies and arbitrary valid
inputs (any longitude, latitude, speed and declination, any houses and
varga summary, the positions dict having unique keys), the Shadbala
total — sthana + dig + kala + ayana + cheshta + naisargika + drig — is
non-negative (and trivially finite in exact rational arithmetic), even
though the drig component itself may be negative. -/
theorem claim_C4_shadbala_total_nonneg (S : Strength.StrengthInputs)
    (planet : String) (position : Strength.PlanetPosition)
    (hp : planet ∈ Strength.scoredBodies)
    (hnd : (S.positions.map Prod.fst).Nodup)
    (hmem : (planet, position) ∈ S.positions) :
    0 ≤ Strength.shadbalaTotal S planet position := by
  have h1 := Strength.sthanaBala_ge S planet position
  have h2 := Strength.digBala_nonneg S planet position
  have h3 := Strength.kalaBala_ge planet
  have h4 := Strength.ayanaBala_nonneg planet position
  have h5 := Strength.cheshtaBala_ge position
  have h6 := Strength.drigBala_ge_of_nodup S planet position.longitude hnd
  have h7 : (43 : ℚ) / 5 ≤ Strength.naisargikaBala planet := by
    fin_cases hp <;> simp [Strength.naisargikaBala] <;> norm_num
  unfold Strength.shadbalaTotal
  linarith

/-- C4 witness: the bound applied to a concrete one-planet chart. -/
theorem claim_C4_witness :
    0 ≤ Strength.shadbalaTotal
      ⟨[("Sun", ⟨10, 0, 0, 0⟩)], [], []⟩ "Sun" ⟨10, 0, 0, 0⟩ :=
  claim_C4_shadbala_total_nonneg ⟨[("Sun", ⟨10, 0, 0, 0⟩)], [], []⟩ "Sun"
    ⟨10, 0, 0, 0⟩ (by decide) (by decide) (by decide)
